import Mathlib

/-!
Verification of the `Yashiro404/smartpointer` repository
(`src/Smartpointer.cpp`), a single-file C++ program contrasting manual
memory management of a `Resource` with automatic release through
`std::unique_ptr`.

The program is shallowly embedded as a trace of observable events:
every `std::cout` line becomes one `Event`, tagged where applicable with
the identity and stored value of the `Resource` instance that emitted it.
Instance identity (the object's address in C++) is modelled by a `Nat`
tag chosen by the allocation site; the two allocations in the program use
distinct tags `0` and `1`.
-/

namespace Smartpointer

/-- One observable output event of the program.  `construct`, `display`
and `destruct` correspond to the lines printed by `Resource`'s
constructor, `Resource::display` and `Resource`'s destructor; `print`
covers every other `std::cout` line (an empty string is the blank line
printed by a bare `std::endl`). -/
inductive Event where
  | construct (id : Nat) (value : Int)
  | display (id : Nat) (value : Int)
  | destruct (id : Nat) (value : Int)
  | print (line : String)
  deriving DecidableEq

/-- The one entity of the program: `class Resource`, whose only field is
`int data`.  The extra `id` component models object identity (the
address), letting distinct instances with equal `data` be told apart in
the trace. -/
structure Resource where
  id : Nat
  data : Int
  deriving DecidableEq

/-- Embeds `Resource::Resource(int value) : data(value)`: the produced
instance stores `value`, and the construction signal is emitted. -/
def Resource.construct (i : Nat) (value : Int) : Resource × List Event :=
  (⟨i, value⟩, [Event.construct i value])

/-- Embeds `void Resource::display()`: prints `data` and leaves the
instance unchanged (the method assigns to no field). -/
def Resource.display (r : Resource) : Resource × List Event :=
  (r, [Event.display r.id r.data])

/-- Embeds `Resource::~Resource()`: the destruction signal carries the
current `data`. -/
def Resource.destruct (r : Resource) : List Event :=
  [Event.destruct r.id r.data]

/-- Embeds `void withoutSmartPointer()`: `new Resource(42)`, then
`rawPtr->display()`, then `delete rawPtr` (which runs the destructor),
then the confirmation line.  `i` is the identity tag of the allocated
instance. -/
def withoutSmartPointer (i : Nat) : List Event :=
  let p := Resource.construct i 42
  let d := Resource.display p.1
  p.2 ++ d.2 ++ Resource.destruct d.1 ++ [Event.print "Memory manually freed."]

/-- Embeds the C++ scope semantics governing a `std::unique_ptr` local:
the owned `Resource` is constructed on entry, the body of the scope runs
(returning its trace and whether it exits by exception), and the owner's
destructor — which destroys the owned `Resource` — runs when control
leaves the scope, on the normal path and on the unwind path alike.  The
returned Bool propagates the body's exit kind. -/
def scopedRun (i : Nat) (value : Int) (body : Resource → List Event × Bool) :
    List Event × Bool :=
  let p := Resource.construct i value
  let r := body p.1
  (p.2 ++ r.1 ++ Resource.destruct p.1, r.2)

/-- Embeds `void withUniquePointer()`: `std::make_unique<Resource>(42)`
owned by the local `smartPtr`, then `smartPtr->display()`, no explicit
release; the destructor runs when `smartPtr` goes out of scope, i.e. at
the end of this function's trace.  The body throws nothing, so the exit
flag is `false`. -/
def withUniquePointer (i : Nat) : List Event :=
  (scopedRun i 42 (fun r => ((Resource.display r).2, false))).1

/-- Embeds `int main()`: header, manual demonstration, blank line,
header, scoped demonstration, blank line, `return 0`.  The two
allocation sites get identity tags `0` and `1`. -/
def mainTrace : List Event :=
  [Event.print "Without Smart Pointer:"] ++ withoutSmartPointer 0
    ++ [Event.print ""]
    ++ [Event.print "With Smart Pointer:"] ++ withUniquePointer 1
    ++ [Event.print ""]

/-- A whole run of the program: the event trace and the exit code
(`return 0`). -/
def mainRun : List Event × Nat :=
  (mainTrace, 0)

/-- The program reads no input, no files, no environment and no state
persisted by an earlier run, so a run's behavior cannot depend on which
run it is; `runIndex` numbers the runs and is (faithfully to `main`)
unused. -/
def runProgram (_runIndex : Nat) : List Event × Nat :=
  mainRun

/-- Renders an event as the exact text of the output line the program
prints for it. -/
def Event.render : Event → String
  | .construct _ v => "Resource constructor. Value: " ++ toString v
  | .display _ v => "Value: " ++ toString v
  | .destruct _ v => "Resource destructor. Value: " ++ toString v
  | .print s => s

/-- The program's standard output, line by line. -/
def mainOutput : List String :=
  mainTrace.map Event.render

/-- Identity tags of the construction signals of a trace, in order. -/
def constructedIds (t : List Event) : List Nat :=
  t.filterMap fun e =>
    match e with
    | Event.construct i _ => some i
    | _ => none

/-- Identity tags of the destruction signals of a trace, in order. -/
def destructedIds (t : List Event) : List Nat :=
  t.filterMap fun e =>
    match e with
    | Event.destruct i _ => some i
    | _ => none

/-- The (identity, value) pairs of a trace's construction signals. -/
def constructPairs (t : List Event) : List (Nat × Int) :=
  t.filterMap fun e =>
    match e with
    | Event.construct i v => some (i, v)
    | _ => none

/-- The (identity, value) pairs of a trace's display lines. -/
def displayPairs (t : List Event) : List (Nat × Int) :=
  t.filterMap fun e =>
    match e with
    | Event.display i v => some (i, v)
    | _ => none

/-- The (identity, value) pairs of a trace's destruction signals. -/
def destructPairs (t : List Event) : List (Nat × Int) :=
  t.filterMap fun e =>
    match e with
    | Event.destruct i v => some (i, v)
    | _ => none

/-- Number of destruction signals for instance `i` in a trace. -/
def destructCountFor (t : List Event) (i : Nat) : Nat :=
  (t.filter fun e =>
    match e with
    | Event.destruct j _ => j == i
    | _ => false).length

/-- Index of the first occurrence of event `e` in trace `t`. -/
def idxOf (t : List Event) (e : Event) : Nat :=
  t.indexOf e

/-- Checks, walking the trace left to right with the accumulator `live`
holding the (identity, value) pairs constructed so far, that every
display line and every destruction signal refers to an instance already
constructed with exactly that value. -/
def signalOrderOk : List (Nat × Int) → List Event → Bool
  | _, [] => true
  | live, Event.construct i v :: rest => signalOrderOk ((i, v) :: live) rest
  | live, Event.display i v :: rest =>
      live.contains (i, v) && signalOrderOk live rest
  | live, Event.destruct i v :: rest =>
      live.contains (i, v) && signalOrderOk live rest
  | live, Event.print _ :: rest => signalOrderOk live rest

end Smartpointer

namespace Smartpointer

/-- Claim C1 as the spec states it is false: the spec's end-to-end
sequence places the scoped Resource's destruction line after the final
blank line, as the last line before process exit, but `smartPtr` goes
out of scope when `withUniquePointer` returns, so its destructor line is
printed before `main`'s trailing `std::endl`. -/
theorem c1_spec_order_refuted :
    mainOutput ≠
      ["Without Smart Pointer:",
       "Resource constructor. Value: 42",
       "Value: 42",
       "Resource destructor. Value: 42",
       "Memory manually freed.",
       "",
       "With Smart Pointer:",
       "Resource constructor. Value: 42",
       "Value: 42",
       "",
       "Resource destructor. Value: 42"] := by
  decide

/-- Claim C1, amended: running the program with no input emits exactly
the manual-path header, the construction line, the display line, the
destruction line, the freed confirmation, a blank line, the scoped-path
header, the construction line, the display line, the destruction line
(emitted when `withUniquePointer`'s scope ends, before `main` prints the
following blank line), and a final blank line; the process exits with
code 0. -/
theorem c1_end_to_end_output :
    mainOutput =
      ["Without Smart Pointer:",
       "Resource constructor. Value: 42",
       "Value: 42",
       "Resource destructor. Value: 42",
       "Memory manually freed.",
       "",
       "With Smart Pointer:",
       "Resource constructor. Value: 42",
       "Value: 42",
       "Resource destructor. Value: 42",
       ""] ∧ mainRun.2 = 0 := by
  constructor
  · decide
  · rfl

/-- Claim C2: across the whole run exactly two Resource instances exist,
each emits exactly one construction signal and exactly one destruction
signal, and every constructed instance is destructed exactly once —
never zero, never more than one of each. -/
theorem c2_exactly_once_signals :
    constructedIds mainTrace = [0, 1] ∧
    destructedIds mainTrace = [0, 1] ∧
    (constructedIds mainTrace).Nodup ∧
    (destructedIds mainTrace).Nodup := by
  decide

/-- Claim C3 as stated is false: in `withoutSmartPointer` the
`delete rawPtr` statement precedes the `"Memory manually freed."`
print, so the destruction signal (output index 3) appears strictly
before, not after, the release confirmation (output index 4). -/
theorem c3_spec_order_refuted :
    ¬ idxOf mainTrace (Event.print "Memory manually freed.") <
        idxOf mainTrace (Event.destruct 0 42) := by
  decide

/-- Claim C3, amended: in the manual-lifetime demonstration the
destruction signal for its Resource appears strictly after the display
line and strictly before (not after) the explicit release confirmation
message. -/
theorem c3_manual_destruct_order :
    idxOf mainTrace (Event.display 0 42) <
      idxOf mainTrace (Event.destruct 0 42) ∧
    idxOf mainTrace (Event.destruct 0 42) <
      idxOf mainTrace (Event.print "Memory manually freed.") := by
  decide

/-- Claim C4: the scoped Resource's destruction signal comes after the
scoped demonstration's header and after that instance's display line; no
explicit release confirmation message occurs anywhere from the scoped
header onward (in particular none precedes the destruction signal within
the scoped demonstration), `withUniquePointer` itself emits no release
confirmation, and the wrapper destructs the scoped instance exactly
once. -/
theorem c4_scoped_destruct_order :
    idxOf mainTrace (Event.print "With Smart Pointer:") <
      idxOf mainTrace (Event.destruct 1 42) ∧
    idxOf mainTrace (Event.display 1 42) <
      idxOf mainTrace (Event.destruct 1 42) ∧
    Event.print "Memory manually freed." ∉
      mainTrace.drop (idxOf mainTrace (Event.print "With Smart Pointer:")) ∧
    Event.print "Memory manually freed." ∉ withUniquePointer 1 ∧
    destructPairs (withUniquePointer 1) = [(1, 42)] := by
  decide

/-- Claim C5: for each of the two instances, the display line and the
destruction signal carry exactly the value the instance was constructed
with (42), and the trace check confirms that no display line or
destruction signal occurs before its instance's construction signal with
that same value. -/
theorem c5_display_reports_constructed_value :
    constructPairs mainTrace = [(0, 42), (1, 42)] ∧
    displayPairs mainTrace = [(0, 42), (1, 42)] ∧
    destructPairs mainTrace = [(0, 42), (1, 42)] ∧
    signalOrderOk [] mainTrace = true := by
  decide

/-- Claim C6: for every body run inside the scope owning the wrapped
Resource — whatever it does and whether it exits normally or by unwind
(the scoped semantics `scopedRun` appends the owner's destructor in both
cases) — as long as the body does not itself destruct the owned
instance, the wrapper releases the Resource exactly once: the scoped
trace holds exactly one destruction signal for it, so no exit path leaks
it or releases it twice. -/
theorem c6_scoped_release_every_path
    (body : Resource → List Event × Bool) (i : Nat) (v : Int)
    (h : destructCountFor (body ⟨i, v⟩).1 i = 0) :
    destructCountFor (scopedRun i v body).1 i = 1 := by
  simp only [scopedRun, Resource.construct, Resource.destruct, destructCountFor,
    List.filter_append, List.length_append, List.filter_cons, List.filter_nil] at h ⊢
  simp_all

/-- Witness for C6 at the program's own body (`smartPtr->display()`),
instance tag 1 and value 42. -/
theorem c6_scoped_release_every_path_witness :
    destructCountFor ((fun r => ((Resource.display r).2, false))
        (⟨1, 42⟩ : Resource)).1 1 = 0 ∧
    destructCountFor (scopedRun 1 42
        (fun r => ((Resource.display r).2, false))).1 1 = 1 :=
  ⟨by decide,
   c6_scoped_release_every_path (fun r => ((Resource.display r).2, false))
     1 42 (by decide)⟩

/-- Claim C7: the entry point `mainRun` takes no arguments (its type has
no parameters and no error component — no operation returns a failure),
and every run of the program terminates with exit code 0. -/
theorem c7_exit_code_zero :
    (∀ k : Nat, (runProgram k).2 = 0) ∧ mainRun.2 = 0 :=
  ⟨fun _ => rfl, rfl⟩

/-- Claim C8: the program is deterministic across runs — any two
executions produce identical traces and exit codes, since `runProgram`
depends on no persisted state and takes no input. -/
theorem c8_deterministic_runs :
    ∀ i j : Nat, runProgram i = runProgram j :=
  fun _ _ => rfl

/-- Claim C9: the scoped Resource's destruction signal is the last event
of `withUniquePointer`'s trace — emitted at the moment the function
returns — and in the whole run it is followed by the blank line `main`
prints afterwards, so the final output line is the blank line, not the
destruction signal. -/
theorem c9_destruct_at_scope_exit :
    (withUniquePointer 1).getLast? = some (Event.destruct 1 42) ∧
    mainTrace.reverse.take 2 = [Event.print "", Event.destruct 1 42] ∧
    mainOutput.getLast? = some "" := by
  decide

/-- Claim C10: `Resource::display` is read-only — it returns the
instance unchanged, so `data` is untouched; the constructor sets `data`
to exactly the given value; and over the whole run the (identity, value)
pairs observed at display and at destruction equal those fixed at
construction, so no instance's value is ever mutated between
construction and destruction. -/
theorem c10_display_read_only :
    (∀ r : Resource, (Resource.display r).1 = r) ∧
    (∀ (i : Nat) (v : Int), ((Resource.construct i v).1).data = v) ∧
    displayPairs mainTrace = constructPairs mainTrace ∧
    destructPairs mainTrace = constructPairs mainTrace :=
  ⟨fun _ => rfl, fun _ _ => rfl, by decide, by decide⟩

end Smartpointer
